import Mathlib

/-!
Verification of the DevFlow SQL/PL-SQL dialect transpiler
(`apps/backend/services/reference_generator/sql_converter.py`).

The Python code is regex-driven.  Each `re` pattern used by the source is
shallowly embedded as a dedicated executable scanner over `List Char` that
implements exactly that pattern's matching semantics (leftmost match, greedy
quantifiers, Python word-boundary `\b` rules, `IGNORECASE`), restricted to
ASCII input as used throughout the repository.  Scanners that restart after a
match use an explicit fuel argument; the wrappers pass `length + 1` fuel,
which is sufficient because every successful match consumes at least one
character.
-/

set_option maxRecDepth 10000

namespace DevFlow

/-- Python `\w` over ASCII: letters, digits and underscore. -/
def isWordChar (c : Char) : Bool := c.isAlphanum || c == '_'

/-- Python `\s` over ASCII: space, tab, newline, carriage return, vertical tab, form feed. -/
def isSpaceChar (c : Char) : Bool :=
  c == ' ' || c == '\t' || c == '\n' || c == '\r' || c == '\x0b' || c == '\x0c'

/-- Python `\d` over ASCII. -/
def isDigitChar (c : Char) : Bool := c.isDigit

/-- Case-insensitive character comparison (`re.IGNORECASE` on ASCII). -/
def lcEq (a b : Char) : Bool := a.toLower == b.toLower

/-- Match a literal case-insensitively at the head of the input; return the rest. -/
def matchLitCI : List Char → List Char → Option (List Char)
  | [], s => some s
  | _ :: _, [] => none
  | p :: ps, c :: cs => if lcEq p c then matchLitCI ps cs else none

/-- Last character of the nonempty literal `w0 :: wr`. -/
def wordLast (w0 : Char) (wr : List Char) : Char := wr.getLast?.getD w0

/-- Anchored attempt of `\b<literal>\b` (case-insensitive) at the current
position; `prevW` is the wordness of the character just before the position
(false at the start of the string), which is what Python's `\b` inspects. -/
def tryWordCI (w0 : Char) (wr : List Char) (prevW : Bool) (s : List Char) :
    Option (List Char) :=
  if prevW != isWordChar w0 then
    match matchLitCI (w0 :: wr) s with
    | some rest =>
      let lastW := isWordChar (wordLast w0 wr)
      let ok := match rest with
        | [] => lastW
        | d :: _ => lastW != isWordChar d
      if ok then some rest else none
    | none => none
  else none

/-- Scanner for `re.sub(rf"\b{re.escape(word)}\b", repl, s, flags=re.IGNORECASE)`:
word-boundary-delimited, case-insensitive, global replacement of a literal. -/
def subWordCIAux (w0 : Char) (wr repl : List Char) : Nat → Bool → List Char → List Char
  | 0, _, s => s
  | _ + 1, _, [] => []
  | fuel + 1, prevW, c :: cs =>
    match tryWordCI w0 wr prevW (c :: cs) with
    | some rest => repl ++ subWordCIAux w0 wr repl fuel (isWordChar (wordLast w0 wr)) rest
    | none => c :: subWordCIAux w0 wr repl fuel (isWordChar c) cs

/-- `re.sub(rf"\b{re.escape(word)}\b", repl, s, flags=re.IGNORECASE)`. -/
def subWordCI (word repl s : String) : String :=
  match word.data with
  | [] => s
  | w0 :: wr => ⟨subWordCIAux w0 wr repl.data (s.data.length + 1) false s.data⟩

/-- `re.search` counterpart of `subWordCIAux`: does the pattern match anywhere? -/
def hasWordCIAux (w0 : Char) (wr : List Char) : Nat → Bool → List Char → Bool
  | 0, _, _ => false
  | _ + 1, _, [] => false
  | fuel + 1, prevW, c :: cs =>
    match tryWordCI w0 wr prevW (c :: cs) with
    | some _ => true
    | none => hasWordCIAux w0 wr fuel (isWordChar c) cs

/-- Whether `\b<word>\b` (case-insensitive) matches anywhere in `s`. -/
def hasWordCI (word s : String) : Bool :=
  match word.data with
  | [] => false
  | w0 :: wr => hasWordCIAux w0 wr (s.data.length + 1) false s.data

/-- Scanner for one key of `SQLConverter._convert_types`:
`re.sub(rf"\b{re.escape(key)}\b(\([^)]+\))?", lambda m: target + (m.group(1) or ""), s,
flags=re.IGNORECASE)` — the mapped target type always gets the captured
`(size)` qualifier (if any) appended. -/
def subTypeKeyAux (w0 : Char) (wr target : List Char) : Nat → Bool → List Char → List Char
  | 0, _, s => s
  | _ + 1, _, [] => []
  | fuel + 1, prevW, c :: cs =>
    let tryM : Option (List Char × List Char) :=
      if prevW != isWordChar w0 then
        match matchLitCI (w0 :: wr) (c :: cs) with
        | some rest =>
          let lastW := isWordChar (wordLast w0 wr)
          let ok := match rest with
            | [] => lastW
            | d :: _ => lastW != isWordChar d
          if ok then
            match rest with
            | '(' :: r1 =>
              let inner := r1.takeWhile (fun d => d != ')')
              let r2 := r1.dropWhile (fun d => d != ')')
              match r2 with
              | ')' :: r3 =>
                if inner.isEmpty then some ([], rest)
                else some ('(' :: (inner ++ [')']), r3)
              | _ => some ([], rest)
            | _ => some ([], rest)
          else none
        | none => none
      else none
    match tryM with
    | some (capt, rest) =>
      let prevW2 := if capt.isEmpty then isWordChar (wordLast w0 wr) else false
      target ++ capt ++ subTypeKeyAux w0 wr target fuel prevW2 rest
    | none => c :: subTypeKeyAux w0 wr target fuel (isWordChar c) cs

/-- Oracle → PostgreSQL type mapping (`ORACLE_TO_POSTGRES`), in source dict order. -/
def ORACLE_TO_POSTGRES : List (String × String) := [
  ("NUMBER", "NUMERIC"),
  ("NUMBER(10)", "INTEGER"),
  ("NUMBER(19)", "BIGINT"),
  ("NUMBER(10,2)", "DECIMAL(10,2)"),
  ("NUMBER(19,2)", "DECIMAL(19,2)"),
  ("NUMBER(38)", "NUMERIC"),
  ("BINARY_FLOAT", "REAL"),
  ("BINARY_DOUBLE", "DOUBLE PRECISION"),
  ("VARCHAR2", "VARCHAR"),
  ("NVARCHAR2", "VARCHAR"),
  ("CHAR", "CHAR"),
  ("NCHAR", "CHAR"),
  ("CLOB", "TEXT"),
  ("NCLOB", "TEXT"),
  ("LONG", "TEXT"),
  ("DATE", "TIMESTAMP"),
  ("TIMESTAMP", "TIMESTAMP"),
  ("TIMESTAMP WITH TIME ZONE", "TIMESTAMPTZ"),
  ("TIMESTAMP WITH LOCAL TIME ZONE", "TIMESTAMPTZ"),
  ("INTERVAL YEAR TO MONTH", "INTERVAL"),
  ("INTERVAL DAY TO SECOND", "INTERVAL"),
  ("BLOB", "BYTEA"),
  ("RAW", "BYTEA"),
  ("LONG RAW", "BYTEA"),
  ("NUMBER(1)", "BOOLEAN"),
  ("ROWID", "TEXT"),
  ("UROWID", "TEXT"),
  ("XMLTYPE", "XML")]

/-- MySQL → PostgreSQL type mapping (`MYSQL_TO_POSTGRES`), in source dict order. -/
def MYSQL_TO_POSTGRES : List (String × String) := [
  ("TINYINT", "SMALLINT"),
  ("SMALLINT", "SMALLINT"),
  ("MEDIUMINT", "INTEGER"),
  ("INT", "INTEGER"),
  ("INTEGER", "INTEGER"),
  ("BIGINT", "BIGINT"),
  ("DECIMAL", "DECIMAL"),
  ("NUMERIC", "NUMERIC"),
  ("FLOAT", "REAL"),
  ("DOUBLE", "DOUBLE PRECISION"),
  ("DOUBLE PRECISION", "DOUBLE PRECISION"),
  ("VARCHAR", "VARCHAR"),
  ("CHAR", "CHAR"),
  ("TINYTEXT", "TEXT"),
  ("TEXT", "TEXT"),
  ("MEDIUMTEXT", "TEXT"),
  ("LONGTEXT", "TEXT"),
  ("ENUM", "VARCHAR(255)"),
  ("SET", "VARCHAR(255)"),
  ("DATE", "DATE"),
  ("DATETIME", "TIMESTAMP"),
  ("TIMESTAMP", "TIMESTAMP"),
  ("TIME", "TIME"),
  ("YEAR", "SMALLINT"),
  ("TINYBLOB", "BYTEA"),
  ("BLOB", "BYTEA"),
  ("MEDIUMBLOB", "BYTEA"),
  ("LONGBLOB", "BYTEA"),
  ("BINARY", "BYTEA"),
  ("VARBINARY", "BYTEA"),
  ("BOOL", "BOOLEAN"),
  ("BOOLEAN", "BOOLEAN"),
  ("JSON", "JSONB")]

/-- Stable insertion keeping longer strings first; ties keep insertion order
(`x` is inserted before the first element that is not strictly longer). -/
def insertByLenDesc (x : String) : List String → List String
  | [] => [x]
  | y :: ys => if x.length < y.length then y :: insertByLenDesc x ys else x :: y :: ys

/-- `sorted(type_map.keys(), key=len, reverse=True)` — Python's sort is stable. -/
def sortByLenDesc : List String → List String
  | [] => []
  | x :: xs => insertByLenDesc x (sortByLenDesc xs)

/-- Apply the substitution for one mapping key, as one iteration of the loop in
`SQLConverter._convert_types`. -/
def applyTypeKey (typeMap : List (String × String)) (s : String) (key : String) : String :=
  match typeMap.lookup key with
  | some target =>
    match key.data with
    | [] => s
    | w0 :: wr => ⟨subTypeKeyAux w0 wr target.data (s.data.length + 1) false s.data⟩
  | none => s

/-- `SQLConverter._convert_types`: longest-key-first substitution pass. -/
def convert_types (s : String) (typeMap : List (String × String)) : String :=
  (sortByLenDesc (typeMap.map Prod.fst)).foldl (applyTypeKey typeMap) s

/-- Anchored attempt of `\bNVL\s*\(` (case-insensitive) at the current position. -/
def tryNvl (prevW : Bool) (s : List Char) : Option (List Char) :=
  if prevW then none
  else match matchLitCI ['N', 'V', 'L'] s with
    | some r1 =>
      match r1.dropWhile isSpaceChar with
      | '(' :: r3 => some r3
      | _ => none
    | none => none

/-- Scanner for `re.sub(r"\bNVL\s*\(", "COALESCE(", s, flags=re.IGNORECASE)`. -/
def subNvlAux : Nat → Bool → List Char → List Char
  | 0, _, s => s
  | _ + 1, _, [] => []
  | fuel + 1, prevW, c :: cs =>
    match tryNvl prevW (c :: cs) with
    | some rest => "COALESCE(".data ++ subNvlAux fuel false rest
    | none => c :: subNvlAux fuel (isWordChar c) cs

def subNvl (s : String) : String := ⟨subNvlAux (s.data.length + 1) false s.data⟩

/-- Whether `\bNVL\s*\(` matches anywhere in the input. -/
def hasNvlAux : Nat → Bool → List Char → Bool
  | 0, _, _ => false
  | _ + 1, _, [] => false
  | fuel + 1, prevW, c :: cs =>
    match tryNvl prevW (c :: cs) with
    | some _ => true
    | none => hasNvlAux fuel (isWordChar c) cs

def hasNvl (s : String) : Bool := hasNvlAux (s.data.length + 1) false s.data

/-- Anchored attempt of `\s+<kw>\s+\w+` (case-insensitive) at the current position. -/
def tryKwWord (kw : List Char) (c : Char) (cs : List Char) : Option (List Char) :=
  if isSpaceChar c then
    match matchLitCI kw (cs.dropWhile isSpaceChar) with
    | some r2 =>
      let r3 := r2.dropWhile isSpaceChar
      if (r2.takeWhile isSpaceChar).isEmpty then none
      else
        if (r3.takeWhile isWordChar).isEmpty then none
        else some (r3.dropWhile isWordChar)
    | none => none
  else none

/-- Scanner for `re.sub(rf"\s+{KW}\s+\w+", "", s, flags=re.IGNORECASE)`
(the `TABLESPACE` storage-clause removal). -/
def removeKwWordAux (kw : List Char) : Nat → List Char → List Char
  | 0, s => s
  | _ + 1, [] => []
  | fuel + 1, c :: cs =>
    match tryKwWord kw c cs with
    | some rest => removeKwWordAux kw fuel rest
    | none => c :: removeKwWordAux kw fuel cs

def removeKwWord (kw s : String) : String := ⟨removeKwWordAux kw.data (s.data.length + 1) s.data⟩

/-- Whether `\s+<kw>\s+\w+` matches anywhere in the input. -/
def hasKwWordAux (kw : List Char) : Nat → List Char → Bool
  | 0, _ => false
  | _ + 1, [] => false
  | fuel + 1, c :: cs =>
    match tryKwWord kw c cs with
    | some _ => true
    | none => hasKwWordAux kw fuel cs

def hasKwWord (kw s : String) : Bool := hasKwWordAux kw.data (s.data.length + 1) s.data

/-- Anchored attempt of `\s+STORAGE\s*\([^)]+\)` (case-insensitive). -/
def tryStorage (c : Char) (cs : List Char) : Option (List Char) :=
  if isSpaceChar c then
    match matchLitCI "STORAGE".data (cs.dropWhile isSpaceChar) with
    | some r2 =>
      match r2.dropWhile isSpaceChar with
      | '(' :: r4 =>
        let inner := r4.takeWhile (fun d => d != ')')
        if inner.isEmpty then none
        else match r4.dropWhile (fun d => d != ')') with
          | ')' :: r6 => some r6
          | _ => none
      | _ => none
    | none => none
  else none

/-- Scanner for `re.sub(r"\s+STORAGE\s*\([^)]+\)", "", s, flags=re.IGNORECASE)`. -/
def removeStorageAux : Nat → List Char → List Char
  | 0, s => s
  | _ + 1, [] => []
  | fuel + 1, c :: cs =>
    match tryStorage c cs with
    | some rest => removeStorageAux fuel rest
    | none => c :: removeStorageAux fuel cs

def removeStorage (s : String) : String := ⟨removeStorageAux (s.data.length + 1) s.data⟩

/-- Whether `\s+STORAGE\s*\([^)]+\)` matches anywhere in the input. -/
def hasStorageAux : Nat → List Char → Bool
  | 0, _ => false
  | _ + 1, [] => false
  | fuel + 1, c :: cs =>
    match tryStorage c cs with
    | some _ => true
    | none => hasStorageAux fuel cs

def hasStorage (s : String) : Bool := hasStorageAux (s.data.length + 1) s.data

/-- Anchored attempt of `\s+<kw>\s+\d+` (case-insensitive). -/
def tryKwNum (kw : List Char) (c : Char) (cs : List Char) : Option (List Char) :=
  if isSpaceChar c then
    match matchLitCI kw (cs.dropWhile isSpaceChar) with
    | some r2 =>
      let r3 := r2.dropWhile isSpaceChar
      if (r2.takeWhile isSpaceChar).isEmpty then none
      else
        if (r3.takeWhile isDigitChar).isEmpty then none
        else some (r3.dropWhile isDigitChar)
    | none => none
  else none

/-- Scanner for `re.sub(rf"\s+{KW}\s+\d+", "", s, flags=re.IGNORECASE)`
(`PCTFREE`, `PCTUSED`, `INITRANS`, `MAXTRANS` removals). -/
def removeKwNumAux (kw : List Char) : Nat → List Char → List Char
  | 0, s => s
  | _ + 1, [] => []
  | fuel + 1, c :: cs =>
    match tryKwNum kw c cs with
    | some rest => removeKwNumAux kw fuel rest
    | none => c :: removeKwNumAux kw fuel cs

def removeKwNum (kw s : String) : String := ⟨removeKwNumAux kw.data (s.data.length + 1) s.data⟩

/-- Whether `\s+<kw>\s+\d+` matches anywhere in the input. -/
def hasKwNumAux (kw : List Char) : Nat → List Char → Bool
  | 0, _ => false
  | _ + 1, [] => false
  | fuel + 1, c :: cs =>
    match tryKwNum kw c cs with
    | some _ => true
    | none => hasKwNumAux kw fuel cs

def hasKwNum (kw s : String) : Bool := hasKwNumAux kw.data (s.data.length + 1) s.data

/-- Anchored attempt of `\bNUMBER\((\d+),\s*(\d+)\)` (case-insensitive);
returns the two digit groups and the rest. -/
def tryNumberPS (prevW : Bool) (s : List Char) :
    Option (List Char × List Char × List Char) :=
  if prevW then none
  else match matchLitCI "NUMBER(".data s with
    | some r1 =>
      let d1 := r1.takeWhile isDigitChar
      if d1.isEmpty then none
      else match r1.dropWhile isDigitChar with
        | ',' :: r3 =>
          let r4 := r3.dropWhile isSpaceChar
          let d2 := r4.takeWhile isDigitChar
          if d2.isEmpty then none
          else match r4.dropWhile isDigitChar with
            | ')' :: r6 => some (d1, d2, r6)
            | _ => none
        | _ => none
    | none => none

/-- Scanner for
`re.sub(r"\bNUMBER\((\d+),\s*(\d+)\)", r"DECIMAL(\1,\2)", s, flags=re.IGNORECASE)`. -/
def subNumberPSAux : Nat → Bool → List Char → List Char
  | 0, _, s => s
  | _ + 1, _, [] => []
  | fuel + 1, prevW, c :: cs =>
    match tryNumberPS prevW (c :: cs) with
    | some (d1, d2, rest) =>
      "DECIMAL(".data ++ d1 ++ [','] ++ d2 ++ [')'] ++ subNumberPSAux fuel false rest
    | none => c :: subNumberPSAux fuel (isWordChar c) cs

def subNumberPS (s : String) : String := ⟨subNumberPSAux (s.data.length + 1) false s.data⟩

/-- Whether `\bNUMBER\((\d+),\s*(\d+)\)` matches anywhere in the input. -/
def hasNumberPSAux : Nat → Bool → List Char → Bool
  | 0, _, _ => false
  | _ + 1, _, [] => false
  | fuel + 1, prevW, c :: cs =>
    match tryNumberPS prevW (c :: cs) with
    | some _ => true
    | none => hasNumberPSAux fuel (isWordChar c) cs

def hasNumberPS (s : String) : Bool := hasNumberPSAux (s.data.length + 1) false s.data

/-- `SQLConverter._convert_oracle_syntax`: the ordered Oracle-specific rewrites. -/
def convert_oracle_syntax_pass (s : String) : String :=
  let t1 := subWordCI "SYSDATE" "CURRENT_DATE" s
  let t2 := subWordCI "SYSTIMESTAMP" "CURRENT_TIMESTAMP" t1
  let t3 := subNvl t2
  let t4 := removeKwWord "TABLESPACE" t3
  let t5 := removeStorage t4
  let t6 := removeKwNum "PCTFREE" t5
  let t7 := removeKwNum "PCTUSED" t6
  let t8 := removeKwNum "INITRANS" t7
  let t9 := removeKwNum "MAXTRANS" t8
  let t10 := subWordCI "VARCHAR2" "VARCHAR" t9
  let t11 := subWordCI "NUMBER(10)" "INTEGER" t10
  let t12 := subWordCI "NUMBER(19)" "BIGINT" t11
  let t13 := subWordCI "NUMBER(1)" "BOOLEAN" t12
  let t14 := subNumberPS t13
  subWordCI "NUMBER" "NUMERIC" t14

/-- Scanner for `SQLConverter._convert_sequences`:
`re.sub(r"(\w+)\s+(?:NUMBER|INTEGER)\s+DEFAULT\s+\w+\.NEXTVAL", r"\1 SERIAL", s,
flags=re.IGNORECASE)`. -/
def convertSequencesAux : Nat → List Char → List Char
  | 0, s => s
  | _ + 1, [] => []
  | fuel + 1, c :: cs =>
    let tryM : Option (List Char × List Char) :=
      if isWordChar c then
        let w1 := (c :: cs).takeWhile isWordChar
        let r1 := (c :: cs).dropWhile isWordChar
        let r2 := r1.dropWhile isSpaceChar
        if (r1.takeWhile isSpaceChar).isEmpty then none
        else
          let afterTy : Option (List Char) :=
            match matchLitCI "NUMBER".data r2 with
            | some r => some r
            | none => matchLitCI "INTEGER".data r2
          match afterTy with
          | some r3 =>
            let r4 := r3.dropWhile isSpaceChar
            if (r3.takeWhile isSpaceChar).isEmpty then none
            else match matchLitCI "DEFAULT".data r4 with
              | some r5 =>
                let r6 := r5.dropWhile isSpaceChar
                if (r5.takeWhile isSpaceChar).isEmpty then none
                else
                  let seqn := r6.takeWhile isWordChar
                  if seqn.isEmpty then none
                  else match r6.dropWhile isWordChar with
                    | '.' :: r8 =>
                      match matchLitCI "NEXTVAL".data r8 with
                      | some r9 => some (w1, r9)
                      | none => none
                    | _ => none
              | none => none
          | none => none
      else none
    match tryM with
    | some (w1, rest) => w1 ++ " SERIAL".data ++ convertSequencesAux fuel rest
    | none => c :: convertSequencesAux fuel cs

/-- `SQLConverter._convert_sequences`. -/
def convert_sequences (s : String) : String := ⟨convertSequencesAux (s.data.length + 1) s.data⟩

/-- `SQLConverter._replace_table_name`: whole-word case-insensitive rename. -/
def replace_table_name (sql old_name new_name : String) : String :=
  subWordCI old_name new_name sql

/-- `SQLConverter._replace_column_name`.  The `table` argument is accepted but,
as in the source, never used: the replacement is a plain whole-word
case-insensitive substitution over the whole text. -/
def replace_column_name (sql : String) (table : String) (old_col new_col : String) : String :=
  subWordCI old_col new_col sql

/-- Scanner for `re.sub(r"\n\s*\n\s*\n", "\n\n", s)`: a whitespace run that starts
at a newline and contains at least three newlines is matched up to its last
newline and replaced by a blank line. -/
def collapseNewlinesAux : Nat → List Char → List Char
  | 0, s => s
  | _ + 1, [] => []
  | fuel + 1, c :: cs =>
    if c == '\n' then
      let run := (c :: cs).takeWhile isSpaceChar
      let rest := (c :: cs).dropWhile isSpaceChar
      if run.count '\n' ≥ 3 then
        let trailing := (run.reverse.takeWhile (fun d => d != '\n')).reverse
        '\n' :: '\n' :: collapseNewlinesAux fuel (trailing ++ rest)
      else c :: collapseNewlinesAux fuel cs
    else c :: collapseNewlinesAux fuel cs

/-- Scanner for `re.sub(r";\s*$", ";\n", s, flags=re.MULTILINE)`: `$` is zero-width,
so it matches before a newline (which stays in the text) or at the end. -/
def semicolonFixAux : Nat → List Char → List Char
  | 0, s => s
  | _ + 1, [] => []
  | fuel + 1, c :: cs =>
    if c == ';' then
      let run := cs.takeWhile isSpaceChar
      let rest := cs.dropWhile isSpaceChar
      if rest.isEmpty then ';' :: '\n' :: semicolonFixAux fuel []
      else if run.contains '\n' then
        let trailing := (run.reverse.takeWhile (fun d => d != '\n')).reverse
        ';' :: '\n' :: semicolonFixAux fuel ('\n' :: trailing ++ rest)
      else c :: semicolonFixAux fuel cs
    else c :: semicolonFixAux fuel cs

/-- Python `str.strip()` over ASCII whitespace. -/
def stripWs (l : List Char) : List Char :=
  ((l.dropWhile isSpaceChar).reverse.dropWhile isSpaceChar).reverse

/-- `SQLConverter._clean_sql`. -/
def clean_sql (s : String) : String :=
  let t1 := collapseNewlinesAux (s.data.length + 1) s.data
  let t2 := semicolonFixAux (t1.length + 1) t1
  ⟨stripWs t2⟩

/-- `SQLTransformation` (from `models.py`). -/
structure SQLTransformation where
  original_table : String
  new_table : String
  column_mappings : List (String × String)
  type_conversions : List (String × String)
  dialect_conversion : String
deriving Repr, DecidableEq

/-- `ConversionResult` (from `sql_converter.py`). -/
structure ConversionResult where
  success : Bool
  converted_sql : String
  transformations : List SQLTransformation
  tables_converted : List String
  warnings : List String
  errors : List String
deriving Repr, DecidableEq

/-- The converter's `_type_mappings` registry. -/
def typeMappings : List (String × List (String × String)) :=
  [("oracle_to_postgresql", ORACLE_TO_POSTGRES),
   ("mysql_to_postgresql", MYSQL_TO_POSTGRES)]

/-- Python `dict.__setitem__`: overwrite in place if the key exists, else append. -/
def dictSet {α : Type} (k : String) (v : α) : List (String × α) → List (String × α)
  | [] => [(k, v)]
  | (k', v') :: rest => if k' == k then (k, v) :: rest else (k', v') :: dictSet k v rest

/-- `SQLConverter.convert_schema`: the full pipeline
(types → Oracle syntax → table renames → column renames → sequences → cleanup).
The embedding is total, so the `except` branch of the source is never taken and
`success` is always true with no errors. -/
def convert_schema (original_sql : String)
    (table_mappings : List (String × String))
    (column_mappings : List (String × List (String × String)))
    (source_dialect target_dialect : String) : ConversionResult :=
  let type_key := source_dialect ++ "_to_" ++ target_dialect
  let c1 := match typeMappings.lookup type_key with
    | some m => convert_types original_sql m
    | none => original_sql
  let c2 := if source_dialect == "oracle" then convert_oracle_syntax_pass c1 else c1
  let step3 := table_mappings.foldl
    (fun (acc : String × List SQLTransformation × List String) p =>
      (replace_table_name acc.1 p.1 p.2,
       acc.2.1 ++ [{ original_table := p.1, new_table := p.2, column_mappings := [],
                     type_conversions := [], dialect_conversion := type_key }],
       acc.2.2 ++ [p.1 ++ " -> " ++ p.2]))
    (c2, [], [])
  let step4 := column_mappings.foldl
    (fun (acc : String × List SQLTransformation) tp =>
      tp.2.foldl
        (fun (acc2 : String × List SQLTransformation) cp =>
          (replace_column_name acc2.1 tp.1 cp.1 cp.2,
           acc2.2.map (fun t =>
             if t.original_table == tp.1 then
               { t with column_mappings := dictSet cp.1 cp.2 t.column_mappings }
             else t)))
        acc)
    (step3.1, step3.2.1)
  let c5 := if source_dialect == "oracle" && target_dialect == "postgresql" then
      convert_sequences step4.1
    else step4.1
  let c6 := clean_sql c5
  { success := true, converted_sql := c6, transformations := step4.2,
    tables_converted := step3.2.2, warnings := [], errors := [] }

/-- Case-sensitive prefix test on character lists. -/
def isPrefixOfChars : List Char → List Char → Bool
  | [], _ => true
  | _ :: _, [] => false
  | a :: as, b :: bs => a == b && isPrefixOfChars as bs

/-- Substring containment (Python's `needle in hay`). -/
def containsSub (needle : List Char) : List Char → Bool
  | [] => needle.isEmpty
  | c :: cs => isPrefixOfChars needle (c :: cs) || containsSub needle cs

/-- Uppercase a character list (Python `str.upper()` on ASCII). -/
def toUpperChars (l : List Char) : List Char := l.map Char.toUpper

/-- Lowercase a character list (Python `str.lower()` on ASCII). -/
def toLowerChars (l : List Char) : List Char := l.map Char.toLower

/-- `"sep".join(lines)`. -/
def joinWith (sep : String) : List String → String
  | [] => ""
  | [l] => l
  | l :: ls => l ++ sep ++ joinWith sep ls

/-- The lookahead `[^()]*\)` of `re.split(r",(?![^()]*\))", ...)`: true iff the
first parenthesis character ahead is a `)`. -/
def lookaheadCloseParen : List Char → Bool
  | [] => false
  | c :: cs => if c == ')' then true else if c == '(' then false else lookaheadCloseParen cs

/-- `re.split(r",(?![^()]*\))", s)`: split on commas not inside parentheses. -/
def splitTopCommasAux (cur : List Char) : List Char → List (List Char)
  | [] => [cur.reverse]
  | c :: cs =>
    if c == ',' && !(lookaheadCloseParen cs) then
      cur.reverse :: splitTopCommasAux [] cs
    else splitTopCommasAux (c :: cur) cs

/-- A parsed column record (the dict built by `SQLConverter._parse_columns`). -/
structure Column where
  name : String
  type : String
  nullable : Bool
  primary_key : Bool
  unique : Bool
  default : Option String
deriving Repr, DecidableEq

/-- A parsed foreign-key record (the dict built by `SQLConverter.parse_create_table`). -/
structure ForeignKey where
  column : String
  references_table : String
  references_column : String
deriving Repr, DecidableEq

/-- `SQLTable` (from `models.py`); `primary_key` defaults to the empty string. -/
structure SQLTable where
  name : String
  columns : List Column
  primary_key : String
  foreign_keys : List ForeignKey
  indexes : List String
  original_sql : String
  dialect : String
deriving Repr, DecidableEq

/-- The constraint keywords skipped by `_parse_columns`
(`re.match(r"^\s*(PRIMARY|FOREIGN|UNIQUE|CHECK|CONSTRAINT)", part, re.IGNORECASE)`
is a prefix test, not a whole-word test). -/
def constraintKeywords : List String := ["PRIMARY", "FOREIGN", "UNIQUE", "CHECK", "CONSTRAINT"]

/-- `re.match(r"(\w+)\s+(\w+(?:\([^)]+\))?)\s*(.*)", part)`: column name, type with
optional size, and the attribute text (`.*` stops at a newline). -/
def parseColumnDef (part : List Char) : Option (List Char × List Char × List Char) :=
  let nm := part.takeWhile isWordChar
  if nm.isEmpty then none
  else
    let r1 := part.dropWhile isWordChar
    if (r1.takeWhile isSpaceChar).isEmpty then none
    else
      let r2 := r1.dropWhile isSpaceChar
      let ty1 := r2.takeWhile isWordChar
      if ty1.isEmpty then none
      else
        let r3 := r2.dropWhile isWordChar
        let tyAndRest : List Char × List Char :=
          match r3 with
          | '(' :: q =>
            let inner := q.takeWhile (fun d => d != ')')
            match q.dropWhile (fun d => d != ')') with
            | ')' :: r5 =>
              if inner.isEmpty then (ty1, r3) else (ty1 ++ '(' :: (inner ++ [')']), r5)
            | _ => (ty1, r3)
          | _ => (ty1, r3)
        let attrs := (tyAndRest.2.dropWhile isSpaceChar).takeWhile (fun d => d != '\n')
        some (nm, tyAndRest.1, attrs)

/-- Scanner for `SQLConverter._extract_default`:
`re.search(r"DEFAULT\s+([^,\s]+(?:\([^)]*\))?)", attrs, re.IGNORECASE)`.
The optional parenthesised part can never fire because `[^,\s]+` is greedy and
`(` is neither a comma nor whitespace, so the captured group is exactly the
maximal run of non-comma non-space characters. -/
def extractDefaultAux : Nat → List Char → Option (List Char)
  | 0, _ => none
  | _ + 1, [] => none
  | fuel + 1, c :: cs =>
    let tryM : Option (List Char) :=
      match matchLitCI "DEFAULT".data (c :: cs) with
      | some r1 =>
        if (r1.takeWhile isSpaceChar).isEmpty then none
        else
          let tok := (r1.dropWhile isSpaceChar).takeWhile
            (fun d => !(d == ',' || isSpaceChar d))
          if tok.isEmpty then none else some tok
      | none => none
    match tryM with
    | some tok => some tok
    | none => extractDefaultAux fuel cs

/-- `SQLConverter._parse_columns`. -/
def parse_columns (columns_str : List Char) : List Column :=
  (splitTopCommasAux [] columns_str).filterMap (fun raw =>
    let part := stripWs raw
    if part.isEmpty then none
    else if constraintKeywords.any
        (fun kw => (matchLitCI kw.data (part.dropWhile isSpaceChar)).isSome) then none
    else match parseColumnDef part with
      | some (nm, ty, attrs) =>
        let up := toUpperChars attrs
        some { name := ⟨nm⟩, type := ⟨ty⟩,
               nullable := !(containsSub "NOT NULL".data up),
               primary_key := containsSub "PRIMARY KEY".data up,
               unique := containsSub "UNIQUE".data up,
               default := (extractDefaultAux (attrs.length + 1) attrs).map
                 (fun t => (⟨t⟩ : String)) }
      | none => none)

/-- Scanner for `re.search(r"PRIMARY\s+KEY\s*\((\w+)\)", columns_str, re.IGNORECASE)`. -/
def searchPrimaryKeyAux : Nat → List Char → Option (List Char)
  | 0, _ => none
  | _ + 1, [] => none
  | fuel + 1, c :: cs =>
    let tryM : Option (List Char) :=
      match matchLitCI "PRIMARY".data (c :: cs) with
      | some r1 =>
        if (r1.takeWhile isSpaceChar).isEmpty then none
        else match matchLitCI "KEY".data (r1.dropWhile isSpaceChar) with
          | some r3 =>
            match r3.dropWhile isSpaceChar with
            | '(' :: r5 =>
              let w := r5.takeWhile isWordChar
              if w.isEmpty then none
              else match r5.dropWhile isWordChar with
                | ')' :: _ => some w
                | _ => none
            | _ => none
          | none => none
      | none => none
    match tryM with
    | some w => some w
    | none => searchPrimaryKeyAux fuel cs

/-- Scanner for
`re.finditer(r"FOREIGN\s+KEY\s*\((\w+)\)\s*REFERENCES\s+(\w+)\s*\((\w+)\)", ...)`. -/
def findForeignKeysAux : Nat → List Char → List ForeignKey
  | 0, _ => []
  | _ + 1, [] => []
  | fuel + 1, c :: cs =>
    let tryM : Option (ForeignKey × List Char) :=
      match matchLitCI "FOREIGN".data (c :: cs) with
      | some r1 =>
        if (r1.takeWhile isSpaceChar).isEmpty then none
        else match matchLitCI "KEY".data (r1.dropWhile isSpaceChar) with
          | some r3 =>
            match r3.dropWhile isSpaceChar with
            | '(' :: r5 =>
              let col := r5.takeWhile isWordChar
              if col.isEmpty then none
              else match r5.dropWhile isWordChar with
                | ')' :: r7 =>
                  match matchLitCI "REFERENCES".data (r7.dropWhile isSpaceChar) with
                  | some r8 =>
                    if (r8.takeWhile isSpaceChar).isEmpty then none
                    else
                      let r9 := r8.dropWhile isSpaceChar
                      let tbl := r9.takeWhile isWordChar
                      if tbl.isEmpty then none
                      else match (r9.dropWhile isWordChar).dropWhile isSpaceChar with
                        | '(' :: r10 =>
                          let rc := r10.takeWhile isWordChar
                          if rc.isEmpty then none
                          else match r10.dropWhile isWordChar with
                            | ')' :: r11 =>
                              some ({ column := ⟨col⟩, references_table := ⟨tbl⟩,
                                      references_column := ⟨rc⟩ }, r11)
                            | _ => none
                        | _ => none
                  | none => none
                | _ => none
            | _ => none
          | none => none
      | none => none
    match tryM with
    | some (fk, rest) => fk :: findForeignKeysAux fuel rest
    | none => findForeignKeysAux fuel cs

/-- Split a segment at its last `)`: `seg = before ++ ')' :: after`. -/
def lastCloseParenSplit (seg : List Char) : Option (List Char × List Char) :=
  match seg.reverse.dropWhile (fun d => d != ')') with
  | ')' :: revBefore =>
    some (revBefore.reverse, (seg.reverse.takeWhile (fun d => d != ')')).reverse)
  | _ => none

/-- The `(\w+)\s*\(([^;]+)\)` tail of the CREATE TABLE pattern: table name, then
the body runs to the last `)` before any `;` (greedy `[^;]+` with backtracking). -/
def matchCreateTableTail (r : List Char) : Option (List Char × List Char × List Char) :=
  let nm := r.takeWhile isWordChar
  if nm.isEmpty then none
  else
    match (r.dropWhile isWordChar).dropWhile isSpaceChar with
    | '(' :: r2 =>
      let seg := r2.takeWhile (fun d => d != ';')
      let after := r2.dropWhile (fun d => d != ';')
      match lastCloseParenSplit seg with
      | some (body, tailSeg) =>
        if body.isEmpty then none
        else some (nm, body, tailSeg ++ after)
      | none => none
    | _ => none

/-- Anchored attempt of
`CREATE\s+TABLE\s+(?:IF\s+NOT\s+EXISTS\s+)?(\w+)\s*\(([^;]+)\)` (IGNORECASE,
DOTALL); returns `(name, body, rest-after-match)`. -/
def matchCreateTableAt (l : List Char) : Option (List Char × List Char × List Char) :=
  match matchLitCI "CREATE".data l with
  | some r1 =>
    if (r1.takeWhile isSpaceChar).isEmpty then none
    else match matchLitCI "TABLE".data (r1.dropWhile isSpaceChar) with
      | some r2 =>
        if (r2.takeWhile isSpaceChar).isEmpty then none
        else
          let r3 := r2.dropWhile isSpaceChar
          let withOpt : Option (List Char) :=
            match matchLitCI "IF".data r3 with
            | some a1 =>
              if (a1.takeWhile isSpaceChar).isEmpty then none
              else match matchLitCI "NOT".data (a1.dropWhile isSpaceChar) with
                | some a2 =>
                  if (a2.takeWhile isSpaceChar).isEmpty then none
                  else match matchLitCI "EXISTS".data (a2.dropWhile isSpaceChar) with
                    | some a3 =>
                      if (a3.takeWhile isSpaceChar).isEmpty then none
                      else some (a3.dropWhile isSpaceChar)
                    | none => none
                | none => none
            | none => none
          match withOpt with
          | some r4 =>
            match matchCreateTableTail r4 with
            | some res => some res
            | none => matchCreateTableTail r3
          | none => matchCreateTableTail r3
      | none => none
  | none => none

/-- `re.finditer` loop for the CREATE TABLE pattern; yields `(whole, name, body)`. -/
def findCreateTablesAux : Nat → List Char → List (List Char × List Char × List Char)
  | 0, _ => []
  | _ + 1, [] => []
  | fuel + 1, c :: cs =>
    match matchCreateTableAt (c :: cs) with
    | some (nm, body, rest) =>
      let whole := (c :: cs).take ((c :: cs).length - rest.length)
      (whole, nm, body) :: findCreateTablesAux fuel rest
    | none => findCreateTablesAux fuel cs

/-- `SQLConverter.parse_create_table`. -/
def parse_create_table (sql : String) : List SQLTable :=
  (findCreateTablesAux (sql.data.length + 1) sql.data).map (fun m =>
    let cols := parse_columns m.2.2
    let pk : String := match searchPrimaryKeyAux (m.2.2.length + 1) m.2.2 with
      | some w => ⟨w⟩
      | none =>
        match cols.find? (fun col => col.primary_key) with
        | some col => col.name
        | none => ""
    { name := ⟨m.2.1⟩, columns := cols, primary_key := pk,
      foreign_keys := findForeignKeysAux (m.2.2.length + 1) m.2.2,
      indexes := [], original_sql := ⟨m.1⟩, dialect := "postgresql" })

/-- `t.name.lower()`. -/
def lowname (t : SQLTable) : String := ⟨toLowerChars t.name.data⟩

/-- The dict comprehension `{t.name.lower(): t for t in tables}`. -/
def dictOfTables (ts : List SQLTable) : List (String × SQLTable) :=
  ts.foldl (fun d t => dictSet (lowname t) t d) []

/-- `SQLConverter.generate_migration`. -/
def generate_migration (from_tables to_tables : List SQLTable) : String :=
  let from_dict := dictOfTables from_tables
  let to_dict := dictOfTables to_tables
  let header := ["-- Migration Script", "-- Generated by ReferenceGenerator SQLConverter", ""]
  let creates := to_dict.foldl (fun acc p =>
    if (from_dict.lookup p.1).isNone then
      acc ++ ["-- Create new table: " ++ p.2.name, p.2.original_sql, ""]
    else acc) []
  let drops := from_dict.foldl (fun acc p =>
    if (to_dict.lookup p.1).isNone then
      acc ++ ["-- Drop table: " ++ p.2.name,
              "DROP TABLE IF EXISTS " ++ p.2.name ++ " CASCADE;", ""]
    else acc) []
  joinWith "\n" (header ++ creates ++ drops)

/-- A parsed procedure parameter (the dict built by
`StoredProcedureConverter._parse_parameters`). -/
structure ProcParam where
  name : String
  direction : String
  oracle_type : String
  python_type : String
deriving Repr, DecidableEq

/-- Anchored `re.match(r"CREATE\s+(?:OR\s+REPLACE\s+)?PROCEDURE\s+(\w+)\s*\(([^)]*)\)",
procedure_sql, re.IGNORECASE)`; returns `(procedure name, parameter text)`. -/
def matchProcHeader (s : String) : Option (String × String) :=
  match matchLitCI "CREATE".data s.data with
  | some r1 =>
    if (r1.takeWhile isSpaceChar).isEmpty then none
    else
      let r2 := r1.dropWhile isSpaceChar
      let withOpt : Option (List Char) :=
        match matchLitCI "OR".data r2 with
        | some a1 =>
          if (a1.takeWhile isSpaceChar).isEmpty then none
          else match matchLitCI "REPLACE".data (a1.dropWhile isSpaceChar) with
            | some a2 =>
              if (a2.takeWhile isSpaceChar).isEmpty then none
              else some (a2.dropWhile isSpaceChar)
            | none => none
        | none => none
      let tryTail : List Char → Option (String × String) := fun r =>
        match matchLitCI "PROCEDURE".data r with
        | some r3 =>
          if (r3.takeWhile isSpaceChar).isEmpty then none
          else
            let r4 := r3.dropWhile isSpaceChar
            let nm := r4.takeWhile isWordChar
            if nm.isEmpty then none
            else
              match (r4.dropWhile isWordChar).dropWhile isSpaceChar with
              | '(' :: r6 =>
                let ps := r6.takeWhile (fun d => d != ')')
                match r6.dropWhile (fun d => d != ')') with
                | ')' :: _ => some (⟨nm⟩, ⟨ps⟩)
                | _ => none
              | _ => none
        | none => none
      match withOpt with
      | some r =>
        match tryTail r with
        | some res => some res
        | none => tryTail r2
      | none => tryTail r2
  | none => none

/-- `re.sub(r"([A-Z])", r"_\1", name)`: underscore before every ASCII capital. -/
def snakeExpand (l : List Char) : List Char :=
  l.flatMap (fun c => if c.isUpper then ['_', c] else [c])

/-- Python `str.replace(old, new)`: non-overlapping left-to-right replacement. -/
def replaceSubAux (old new : List Char) : Nat → List Char → List Char
  | 0, s => s
  | _ + 1, [] => []
  | fuel + 1, c :: cs =>
    if !old.isEmpty && isPrefixOfChars old (c :: cs) then
      new ++ replaceSubAux old new fuel ((c :: cs).drop old.length)
    else c :: replaceSubAux old new fuel cs

/-- `StoredProcedureConverter._convert_procedure_name`: strip `SP_`, insert an
underscore before every capital, lowercase, strip leading underscores, then
apply the entity mapping (lowercased) as plain substring replacement. -/
def convert_procedure_name (proc_name : String)
    (entity_mapping : List (String × String)) : String :=
  let nameChars := if isPrefixOfChars "SP_".data (toUpperChars proc_name.data)
    then proc_name.data.drop 3 else proc_name.data
  let name2 := toLowerChars (snakeExpand nameChars)
  let name3 := name2.dropWhile (fun c => c == '_')
  ⟨entity_mapping.foldl
    (fun n p => replaceSubAux (toLowerChars p.1.data) (toLowerChars p.2.data) (n.length + 1) n)
    name3⟩

/-- The `(\w+(?:\([^)]+\))?)` type token at the head of the input. -/
def matchTypeToken (r : List Char) : Option (List Char) :=
  let t1 := r.takeWhile isWordChar
  if t1.isEmpty then none
  else
    match r.dropWhile isWordChar with
    | '(' :: q =>
      let inner := q.takeWhile (fun d => d != ')')
      match q.dropWhile (fun d => d != ')') with
      | ')' :: _ => if inner.isEmpty then some t1 else some (t1 ++ '(' :: (inner ++ [')']))
      | _ => some t1
    | _ => some t1

/-- Anchored `re.match(r"(\w+)\s+(IN(?:\s+OUT)?|OUT)?\s*(\w+(?:\([^)]+\))?)", part,
re.IGNORECASE)`: parameter name, optional direction group (matched text), type
token.  The direction alternatives are tried in the regex backtracking order
`IN OUT`, `IN`, `OUT`, no group. -/
def matchParamDef (part : List Char) : Option (List Char × Option (List Char) × List Char) :=
  let nm := part.takeWhile isWordChar
  if nm.isEmpty then none
  else
    let r1 := part.dropWhile isWordChar
    if (r1.takeWhile isSpaceChar).isEmpty then none
    else
      let r2 := r1.dropWhile isSpaceChar
      let cands : List (Option (List Char) × List Char) :=
        (match matchLitCI "IN".data r2 with
         | some a1 =>
           (match (if (a1.takeWhile isSpaceChar).isEmpty then none
                   else matchLitCI "OUT".data (a1.dropWhile isSpaceChar)) with
            | some a2 => [(some (r2.take (r2.length - a2.length)), a2)]
            | none => []) ++ [(some (r2.take 2), a1)]
         | none => []) ++
        (match matchLitCI "OUT".data r2 with
         | some a1 => [(some (r2.take 3), a1)]
         | none => []) ++
        [(none, r2)]
      cands.findSome? (fun cand =>
        (matchTypeToken (cand.2.dropWhile isSpaceChar)).map (fun ty => (nm, cand.1, ty)))

/-- `StoredProcedureConverter._oracle_type_to_python`. -/
def oracle_type_to_python (oracle_type : String) : String :=
  let tu := toUpperChars oracle_type.data
  if containsSub "NUMBER".data tu || containsSub "INT".data tu then "int"
  else if containsSub "VARCHAR".data tu || containsSub "CHAR".data tu then "str"
  else if containsSub "DATE".data tu || containsSub "TIMESTAMP".data tu then "datetime"
  else if containsSub "CLOB".data tu || containsSub "BLOB".data tu then "bytes"
  else if containsSub "CURSOR".data tu then "list[dict[str, Any]]"
  else if containsSub "BOOLEAN".data tu then "bool"
  else "Any"

/-- `StoredProcedureConverter._parse_parameters`. -/
def parse_parameters (params_str : String)
    (entity_mapping : List (String × String)) : List ProcParam :=
  if (stripWs params_str.data).isEmpty then []
  else
    (splitTopCommasAux [] params_str.data).filterMap (fun raw =>
      let part := stripWs raw
      if part.isEmpty then none
      else match matchParamDef part with
        | some (nm, grp, ty) =>
          let direction : String := match grp with
            | some g => ⟨(toUpperChars g).filter (fun c => c != ' ')⟩
            | none => "IN"
          let py0 := toLowerChars nm
          let py1 := if isPrefixOfChars "p_".data py0 then py0.drop 2 else py0
          let py2 := entity_mapping.foldl
            (fun n p =>
              replaceSubAux (toLowerChars p.1.data) (toLowerChars p.2.data) (n.length + 1) n)
            py1
          some { name := ⟨py2⟩, direction := direction, oracle_type := ⟨ty⟩,
                 python_type := oracle_type_to_python ⟨ty⟩ }
        | none => none)

/-- `StoredProcedureConverter._generate_docstring`. -/
def generate_docstring (proc_name : String) (in_params out_params : List ProcParam) : String :=
  let parts1 : List String :=
    if in_params.isEmpty then []
    else "Args:" :: in_params.map (fun p => "            " ++ p.name ++ ": " ++ p.python_type)
  let parts2 : List String :=
    if out_params.isEmpty then []
    else if out_params.length == 1 then
      ["        Returns:", "            " ++ ((out_params.head?.map ProcParam.python_type).getD "")]
    else
      ["        Returns:",
       "            dict with: " ++ joinWith ", " (out_params.map ProcParam.name)]
  let parts := parts1 ++ parts2
  if parts.isEmpty then "Converted from " ++ proc_name ++ "." else joinWith "\n" parts

/-- `StoredProcedureConverter.convert_to_python`. -/
def convert_to_python (procedure_sql : String)
    (entity_mapping : List (String × String)) : String :=
  match matchProcHeader procedure_sql with
  | none => "# Could not parse procedure"
  | some (proc_name, params_str) =>
    let method_name := convert_procedure_name proc_name entity_mapping
    let params := parse_parameters params_str entity_mapping
    let in_params := params.filter (fun p => p.direction == "IN" || p.direction == "INOUT")
    let out_params := params.filter (fun p => p.direction == "OUT" || p.direction == "INOUT")
    let param_str := joinWith ", " (in_params.map (fun p => p.name ++ ": " ++ p.python_type))
    let return_type : String :=
      if out_params.length == 0 then "None"
      else if out_params.length == 1 then (out_params.head?.map ProcParam.python_type).getD "None"
      else "dict[str, Any]"
    let lines : List String :=
      ["    async def " ++ method_name ++ "(",
       "        self,"] ++
      (if param_str != "" then ["        " ++ param_str ++ ","] else []) ++
      ["    ) -> " ++ return_type ++ ":",
       "        \x22\x22\x22",
       "        " ++ generate_docstring proc_name in_params out_params,
       "        Replaces Oracle " ++ proc_name ++ " procedure.",
       "        \x22\x22\x22",
       "        # TODO: Implement business logic",
       "        pass"]
    joinWith "\n" lines

/-- The spec's running DDL example. -/
def ordersSQL : String :=
  "CREATE TABLE orders (order_id NUMBER PRIMARY KEY, customer_id NUMBER NOT NULL, total NUMBER(10,2) DEFAULT 0)"

/-- The spec's running stored-procedure example. -/
def spCreateOrderSQL : String :=
  "CREATE PROCEDURE SP_CREATE_ORDER(p_customer_id IN NUMBER, p_order_id OUT NUMBER)"

/-- Concrete tables for the C6 witness. -/
def tblA : SQLTable :=
  { name := "alpha", columns := [], primary_key := "", foreign_keys := [],
    indexes := [], original_sql := "CREATE TABLE alpha (x INT)", dialect := "postgresql" }

def tblB : SQLTable :=
  { name := "beta", columns := [], primary_key := "", foreign_keys := [],
    indexes := [], original_sql := "CREATE TABLE beta (y INT)", dialect := "postgresql" }

def tblC : SQLTable :=
  { name := "gamma", columns := [], primary_key := "", foreign_keys := [],
    indexes := [], original_sql := "CREATE TABLE gamma (z INT)", dialect := "postgresql" }

/-- Normal form for the Oracle syntax rewriter: none of its fifteen rule
patterns matches anywhere in the text. -/
def oracleSyntaxNF (s : String) : Bool :=
  !hasWordCI "SYSDATE" s && (!hasWordCI "SYSTIMESTAMP" s && (!hasNvl s &&
  (!hasKwWord "TABLESPACE" s && (!hasStorage s && (!hasKwNum "PCTFREE" s &&
  (!hasKwNum "PCTUSED" s && (!hasKwNum "INITRANS" s && (!hasKwNum "MAXTRANS" s &&
  (!hasWordCI "VARCHAR2" s && (!hasWordCI "NUMBER(10)" s && (!hasWordCI "NUMBER(19)" s &&
  (!hasWordCI "NUMBER(1)" s && (!hasNumberPS s && !hasWordCI "NUMBER" s)))))))))))))

theorem subWordCIAux_eq_of_no_match (w0 : Char) (wr repl : List Char) :
    ∀ (fuel : Nat) (prevW : Bool) (s : List Char),
      hasWordCIAux w0 wr fuel prevW s = false →
      subWordCIAux w0 wr repl fuel prevW s = s := by
  intro fuel
  induction fuel with
  | zero => intro prevW s _; rfl
  | succ n ih =>
    intro prevW s h
    cases s with
    | nil => rfl
    | cons c cs =>
      cases htry : tryWordCI w0 wr prevW (c :: cs) with
      | some rest => simp [hasWordCIAux, htry] at h
      | none =>
        simp only [hasWordCIAux, htry] at h
        simp only [subWordCIAux, htry]
        rw [ih (isWordChar c) cs h]

theorem subWordCI_eq_of_no_match (word repl s : String)
    (h : hasWordCI word s = false) : subWordCI word repl s = s := by
  unfold subWordCI
  unfold hasWordCI at h
  cases hw : word.data with
  | nil => rfl
  | cons w0 wr =>
    rw [hw] at h
    have h' : hasWordCIAux w0 wr (s.data.length + 1) false s.data = false := h
    show (⟨subWordCIAux w0 wr repl.data (s.data.length + 1) false s.data⟩ : String) = s
    rw [subWordCIAux_eq_of_no_match w0 wr repl.data _ _ _ h']

theorem subNvlAux_eq_of_no_match :
    ∀ (fuel : Nat) (prevW : Bool) (s : List Char),
      hasNvlAux fuel prevW s = false → subNvlAux fuel prevW s = s := by
  intro fuel
  induction fuel with
  | zero => intro prevW s _; rfl
  | succ n ih =>
    intro prevW s h
    cases s with
    | nil => rfl
    | cons c cs =>
      cases htry : tryNvl prevW (c :: cs) with
      | some rest => simp [hasNvlAux, htry] at h
      | none =>
        simp only [hasNvlAux, htry] at h
        simp only [subNvlAux, htry]
        rw [ih (isWordChar c) cs h]

theorem subNvl_eq_of_no_match (s : String) (h : hasNvl s = false) : subNvl s = s := by
  unfold subNvl
  rw [subNvlAux_eq_of_no_match _ _ _ h]

theorem removeKwWordAux_eq_of_no_match (kw : List Char) :
    ∀ (fuel : Nat) (s : List Char),
      hasKwWordAux kw fuel s = false → removeKwWordAux kw fuel s = s := by
  intro fuel
  induction fuel with
  | zero => intro s _; rfl
  | succ n ih =>
    intro s h
    cases s with
    | nil => rfl
    | cons c cs =>
      cases htry : tryKwWord kw c cs with
      | some rest => simp [hasKwWordAux, htry] at h
      | none =>
        simp only [hasKwWordAux, htry] at h
        simp only [removeKwWordAux, htry]
        rw [ih cs h]

theorem removeKwWord_eq_of_no_match (kw s : String) (h : hasKwWord kw s = false) :
    removeKwWord kw s = s := by
  unfold removeKwWord
  rw [removeKwWordAux_eq_of_no_match _ _ _ h]

theorem removeStorageAux_eq_of_no_match :
    ∀ (fuel : Nat) (s : List Char),
      hasStorageAux fuel s = false → removeStorageAux fuel s = s := by
  intro fuel
  induction fuel with
  | zero => intro s _; rfl
  | succ n ih =>
    intro s h
    cases s with
    | nil => rfl
    | cons c cs =>
      cases htry : tryStorage c cs with
      | some rest => simp [hasStorageAux, htry] at h
      | none =>
        simp only [hasStorageAux, htry] at h
        simp only [removeStorageAux, htry]
        rw [ih cs h]

theorem removeStorage_eq_of_no_match (s : String) (h : hasStorage s = false) :
    removeStorage s = s := by
  unfold removeStorage
  rw [removeStorageAux_eq_of_no_match _ _ h]

theorem removeKwNumAux_eq_of_no_match (kw : List Char) :
    ∀ (fuel : Nat) (s : List Char),
      hasKwNumAux kw fuel s = false → removeKwNumAux kw fuel s = s := by
  intro fuel
  induction fuel with
  | zero => intro s _; rfl
  | succ n ih =>
    intro s h
    cases s with
    | nil => rfl
    | cons c cs =>
      cases htry : tryKwNum kw c cs with
      | some rest => simp [hasKwNumAux, htry] at h
      | none =>
        simp only [hasKwNumAux, htry] at h
        simp only [removeKwNumAux, htry]
        rw [ih cs h]

theorem removeKwNum_eq_of_no_match (kw s : String) (h : hasKwNum kw s = false) :
    removeKwNum kw s = s := by
  unfold removeKwNum
  rw [removeKwNumAux_eq_of_no_match _ _ _ h]

theorem subNumberPSAux_eq_of_no_match :
    ∀ (fuel : Nat) (prevW : Bool) (s : List Char),
      hasNumberPSAux fuel prevW s = false → subNumberPSAux fuel prevW s = s := by
  intro fuel
  induction fuel with
  | zero => intro prevW s _; rfl
  | succ n ih =>
    intro prevW s h
    cases s with
    | nil => rfl
    | cons c cs =>
      cases htry : tryNumberPS prevW (c :: cs) with
      | some rest => simp [hasNumberPSAux, htry] at h
      | none =>
        simp only [hasNumberPSAux, htry] at h
        simp only [subNumberPSAux, htry]
        rw [ih (isWordChar c) cs h]

theorem subNumberPS_eq_of_no_match (s : String) (h : hasNumberPS s = false) :
    subNumberPS s = s := by
  unfold subNumberPS
  rw [subNumberPSAux_eq_of_no_match _ _ _ h]

theorem mem_joinWith_infix (s : String) :
    ∀ lines : List String, s ∈ lines → s.data <:+: (joinWith "\n" lines).data := by
  intro lines
  induction lines with
  | nil => intro h; cases h
  | cons l ls ih =>
    intro h
    cases ls with
    | nil =>
      rw [List.mem_singleton.mp h]
      exact List.infix_refl _
    | cons l2 ls2 =>
      have hjoin : joinWith "\n" (l :: l2 :: ls2) = l ++ "\n" ++ joinWith "\n" (l2 :: ls2) := rfl
      rw [hjoin]
      rcases List.mem_cons.mp h with hrfl | hmem
      · subst hrfl
        have hpre : s.data <+: (s ++ "\n" ++ joinWith "\n" (l2 :: ls2)).data := by
          rw [String.data_append, String.data_append, List.append_assoc]
          exact List.prefix_append _ _
        exact hpre.isInfix
      · have hsuf : (joinWith "\n" (l2 :: ls2)).data
            <:+ (l ++ "\n" ++ joinWith "\n" (l2 :: ls2)).data := by
          rw [String.data_append]
          exact List.suffix_append _ _
        exact (ih hmem).trans hsuf.isInfix

theorem foldl_guard_append {α β : Type} (cond : α → Bool) (f : α → List β) :
    ∀ (l : List α) (acc : List β),
      l.foldl (fun a p => if cond p then a ++ f p else a) acc
        = acc ++ (l.filter cond).flatMap f := by
  intro l
  induction l with
  | nil => intro acc; simp
  | cons x xs ih =>
    intro acc
    cases hc : cond x
    · simp [List.foldl, List.filter_cons, hc, ih]
    · simp [List.foldl, List.filter_cons, hc, ih, List.append_assoc]

theorem lookup_dictSet_ne {α : Type} (k k' : String) (v : α) (h : k ≠ k') :
    ∀ d : List (String × α), (dictSet k' v d).lookup k = d.lookup k := by
  intro d
  induction d with
  | nil => simp [dictSet, List.lookup, beq_eq_false_iff_ne.mpr h]
  | cons p ps ih =>
    obtain ⟨k0, v0⟩ := p
    simp only [dictSet]
    by_cases h0 : k0 = k'
    · subst h0
      simp [List.lookup, beq_eq_false_iff_ne.mpr h]
    · rw [if_neg (by simp [h0])]
      simp only [List.lookup]
      cases hk : k == k0
      · simp only [ih]
      · rfl

theorem lookup_foldl_dictSet_none (k : String) :
    ∀ (fs : List SQLTable) (acc : List (String × SQLTable)),
      (∀ t ∈ fs, lowname t ≠ k) → acc.lookup k = none →
      (fs.foldl (fun d t => dictSet (lowname t) t d) acc).lookup k = none := by
  intro fs
  induction fs with
  | nil => intro acc _ hacc; exact hacc
  | cons t ts ih =>
    intro acc h hacc
    simp only [List.foldl]
    refine ih _ (fun u hu => h u (List.mem_cons_of_mem _ hu)) ?_
    rw [lookup_dictSet_ne _ _ _ (Ne.symm (h t (List.mem_cons_self _ _)))]
    exact hacc

theorem lookup_dictOfTables_none (k : String) (fs : List SQLTable)
    (h : ∀ t ∈ fs, lowname t ≠ k) : (dictOfTables fs).lookup k = none :=
  lookup_foldl_dictSet_none k fs [] h rfl

theorem dictSet_eq_append {α : Type} (k : String) (v : α) :
    ∀ d : List (String × α), (∀ p ∈ d, p.1 ≠ k) → dictSet k v d = d ++ [(k, v)] := by
  intro d
  induction d with
  | nil => intro _; rfl
  | cons p ps ih =>
    intro h
    obtain ⟨k0, v0⟩ := p
    simp only [dictSet]
    rw [if_neg (by simp [h (k0, v0) (List.mem_cons_self _ _)]),
        ih (fun q hq => h q (List.mem_cons_of_mem _ hq))]
    rfl

theorem dictOfTables_eq_map :
    ∀ (ts : List SQLTable) (acc : List (String × SQLTable)),
      (∀ p ∈ acc, ∀ t ∈ ts, p.1 ≠ lowname t) →
      (ts.map lowname).Nodup →
      ts.foldl (fun d t => dictSet (lowname t) t d) acc
        = acc ++ ts.map (fun t => (lowname t, t)) := by
  intro ts
  induction ts with
  | nil => intro acc _ _; simp
  | cons t ts ih =>
    intro acc hdisj hnodup
    simp only [List.foldl, List.map]
    rw [dictSet_eq_append _ _ acc (fun p hp => hdisj p hp t (List.mem_cons_self _ _))]
    rw [ih (acc ++ [(lowname t, t)]) ?hdis ?hnd]
    · simp [List.append_assoc]
    case hdis =>
      intro p hp u hu
      rcases List.mem_append.mp hp with hacc | hsingle
      · exact hdisj p hacc u (List.mem_cons_of_mem _ hu)
      · rw [List.mem_singleton.mp hsingle]
        intro he
        refine (List.nodup_cons.mp hnodup).1 ?_
        have he' : lowname t = lowname u := he
        rw [he']
        exact List.mem_map_of_mem lowname hu
    case hnd => exact (List.nodup_cons.mp hnodup).2

/-- C1: the claim says the Oracle→PostgreSQL pipeline converts `NUMBER(10)` to
`INTEGER` and `NUMBER(10,2)` to `DECIMAL(10,2)`.  On the code this fails: the
`\b` after the escaped `)` in the precision-qualified patterns can only match
before a word character, so the precision entries never fire, and the generic
`NUMBER` entry (with its captured size suffix) wins; by the time the syntax
stage runs, the text already says `NUMERIC`.  Only the bare-`NUMBER` third of
the claim holds.  This theorem evaluates the pipeline at the failing inputs. -/
theorem C1_number_precision_not_converted :
    (convert_schema "NUMBER(10)" [] [] "oracle" "postgresql").converted_sql = "NUMERIC(10)" ∧
    (convert_schema "NUMBER(10,2)" [] [] "oracle" "postgresql").converted_sql
      = "NUMERIC(10,2)" ∧
    (convert_schema "NUMBER" [] [] "oracle" "postgresql").converted_sql = "NUMERIC" ∧
    ("NUMERIC(10)" : String) ≠ "INTEGER" ∧ ("NUMERIC(10,2)" : String) ≠ "DECIMAL(10,2)" :=
  ⟨by decide, by decide, by decide, by decide, by decide⟩

/-- C2: `parse_create_table` on the orders statement returns exactly one table
named `orders` with three columns, primary key `order_id`, a non-nullable
`customer_id`, and default `"0"` on `total`. -/
theorem C2_parse_create_table_orders :
    ∃ t : SQLTable, parse_create_table ordersSQL = [t] ∧
      t.name = "orders" ∧ t.columns.length = 3 ∧ t.primary_key = "order_id" ∧
      (t.columns.find? (fun c => c.name == "customer_id")).map Column.nullable = some false ∧
      (t.columns.find? (fun c => c.name == "total")).map Column.default = some (some "0") :=
  ⟨{ name := "orders",
     columns := [
       { name := "order_id", type := "NUMBER", nullable := true, primary_key := true,
         unique := false, default := none },
       { name := "customer_id", type := "NUMBER", nullable := false, primary_key := false,
         unique := false, default := none },
       { name := "total", type := "NUMBER(10,2)", nullable := true, primary_key := false,
         unique := false, default := some "0" }],
     primary_key := "order_id", foreign_keys := [], indexes := [],
     original_sql := ordersSQL, dialect := "postgresql" },
   by decide, by decide, by decide, by decide, by decide, by decide⟩

/-- C3: the claim says `convert_to_python` on `SP_CREATE_ORDER` yields a method
named `create_order`.  On the code the snake-case step
(`re.sub(r"([A-Z])", r"_\1", name)`) inserts an underscore before EVERY capital
of the already-uppercase Oracle name, so the method is named
`c_r_e_a_t_e__o_r_d_e_r`; the rest of the claim (one `int` parameter, `int`
return, placeholder body) does hold.  This theorem evaluates the converter at
the failing input and shows the claimed name does not occur in the output. -/
theorem C3_procedure_stub_eval :
    convert_to_python spCreateOrderSQL [] = joinWith "\n"
      ["    async def c_r_e_a_t_e__o_r_d_e_r(",
       "        self,",
       "        customer_id: int,",
       "    ) -> int:",
       "        \x22\x22\x22",
       "        Args:\n            customer_id: int\n        Returns:\n            int",
       "        Replaces Oracle SP_CREATE_ORDER procedure.",
       "        \x22\x22\x22",
       "        # TODO: Implement business logic",
       "        pass"] ∧
    containsSub "create_order".data (convert_to_python spCreateOrderSQL []).data = false :=
  ⟨by decide, by decide⟩

/-- C4: the claim says a `column NUMBER DEFAULT seq.NEXTVAL` declaration becomes
`column SERIAL`.  On the code the type-mapping stage rewrites `NUMBER` to
`NUMERIC` before the sequence stage runs, so the sequence pattern
(`NUMBER|INTEGER`) no longer matches and the column is NOT rewritten; the
`INTEGER` variant (which the Oracle type map leaves alone) does become
`SERIAL`.  This theorem evaluates the pipeline at both inputs. -/
theorem C4_sequence_default_eval :
    (convert_schema "id NUMBER DEFAULT order_seq.NEXTVAL" [] [] "oracle"
      "postgresql").converted_sql = "id NUMERIC DEFAULT order_seq.NEXTVAL" ∧
    (convert_schema "id INTEGER DEFAULT order_seq.NEXTVAL" [] [] "oracle"
      "postgresql").converted_sql = "id SERIAL" :=
  ⟨by decide, by decide⟩

/-- C8: when no CREATE TABLE statement matches, `parse_create_table` returns the
empty list, and when the CREATE PROCEDURE header does not match,
`convert_to_python` returns the fixed sentinel comment.  (Both embeddings are
total functions, so no exception is possible.) -/
theorem C8_parse_miss_no_exception :
    (∀ sql : String, findCreateTablesAux (sql.data.length + 1) sql.data = [] →
      parse_create_table sql = []) ∧
    (∀ (s : String) (em : List (String × String)), matchProcHeader s = none →
      convert_to_python s em = "# Could not parse procedure") := by
  constructor
  · intro sql h
    simp only [parse_create_table]
    rw [show findCreateTablesAux (sql.data.length + 1) sql.data = [] from h]
    rfl
  · intro s em h
    simp [convert_to_python, h]

/-- Witness for C8 at concrete inputs with no matching statement. -/
theorem C8_parse_miss_no_exception_witness :
    parse_create_table "SELECT * FROM dual" = [] ∧
    convert_to_python "DROP TABLE orders" [] = "# Could not parse procedure" :=
  ⟨C8_parse_miss_no_exception.1 "SELECT * FROM dual" (by decide),
   C8_parse_miss_no_exception.2 "DROP TABLE orders" [] (by decide)⟩

/-- C5 counterexample: the claim says a trailing size qualifier is not appended
when the mapped target already encodes size (its own example: `ENUM` maps to
`VARCHAR(255)`).  The code's replacement lambda always appends the captured
qualifier: `ENUM(3)` becomes `VARCHAR(255)(3)`, not `VARCHAR(255)`. -/
theorem C5_counterexample :
    convert_types "ENUM(3)" MYSQL_TO_POSTGRES = "VARCHAR(255)(3)" ∧
    convert_types "ENUM(3)" MYSQL_TO_POSTGRES ≠ "VARCHAR(255)" ∧
    convert_types "DOUBLE PRECISION" MYSQL_TO_POSTGRES = "DOUBLE PRECISION PRECISION" :=
  ⟨by decide, by decide, by decide⟩

/-- C5 amended: for every mapped source type whose key carries no parenthesised
precision, converting it in isolation yields exactly its mapped target type,
and a trailing size qualifier (here the representative `(7)`) is always
appended unchanged to the target — even when the target already encodes size.
(Keys that themselves carry a precision, the `NUMBER(p[,s])` forms, never
match in isolation — that failure is covered under C1 — and the MySQL
`DOUBLE PRECISION` entry is excluded because its own replacement is re-matched
by the later `DOUBLE` entry, yielding `DOUBLE PRECISION PRECISION`; see the
counterexample theorem.) -/
theorem C5_amended :
    (∀ p ∈ ORACLE_TO_POSTGRES, p.1.data.contains '(' = false →
       convert_types p.1 ORACLE_TO_POSTGRES = p.2 ∧
       convert_types (p.1 ++ "(7)") ORACLE_TO_POSTGRES = p.2 ++ "(7)") ∧
    (∀ p ∈ MYSQL_TO_POSTGRES, p.1.data.contains '(' = false → p.1 ≠ "DOUBLE PRECISION" →
       convert_types p.1 MYSQL_TO_POSTGRES = p.2 ∧
       convert_types (p.1 ++ "(7)") MYSQL_TO_POSTGRES = p.2 ++ "(7)") := by
  constructor
  · decide
  · decide

/-- Witness for C5 amended at the `CLOB → TEXT` entry. -/
theorem C5_amended_witness :
    ("CLOB" : String).data.contains '(' = false ∧
    convert_types "CLOB" ORACLE_TO_POSTGRES = "TEXT" ∧
    convert_types ("CLOB" ++ "(7)") ORACLE_TO_POSTGRES = "TEXT" ++ "(7)" :=
  ⟨by decide, (C5_amended.1 ("CLOB", "TEXT") (by decide) (by decide)).1,
   (C5_amended.1 ("CLOB", "TEXT") (by decide) (by decide)).2⟩

/-- C7 counterexample: the Syntax Rewriter is not idempotent.  On
`"SYS PCTFREE 10DATE"` the `PCTFREE` storage-clause removal splices the text
into `"SYSDATE"`, which a second pass rewrites to `"CURRENT_DATE"`. -/
theorem C7_counterexample :
    convert_oracle_syntax_pass (convert_oracle_syntax_pass "SYS PCTFREE 10DATE")
      ≠ convert_oracle_syntax_pass "SYS PCTFREE 10DATE" := by decide

/-- C7 amended: the Syntax Rewriter is idempotent on every input whose rewritten
form contains no further match of any of its fifteen rule patterns (which is
the case for ordinary already-converted `VARCHAR`/`NUMERIC` text, as in the
second conjunct); unrestricted idempotence fails (see the counterexample,
where a storage-clause removal splices a new Oracle token together). -/
theorem C7_amended :
    (∀ s : String, oracleSyntaxNF (convert_oracle_syntax_pass s) = true →
      convert_oracle_syntax_pass (convert_oracle_syntax_pass s) = convert_oracle_syntax_pass s) ∧
    convert_oracle_syntax_pass "name VARCHAR(255), total NUMERIC(10,2)"
      = "name VARCHAR(255), total NUMERIC(10,2)" := by
  constructor
  · intro s h
    generalize hT : convert_oracle_syntax_pass s = t at h ⊢
    simp only [oracleSyntaxNF, Bool.and_eq_true, Bool.not_eq_true'] at h
    obtain ⟨h1, h2, h3, h4, h5, h6, h7, h8, h9, h10, h11, h12, h13, h14, h15⟩ := h
    simp only [convert_oracle_syntax_pass]
    rw [subWordCI_eq_of_no_match "SYSDATE" "CURRENT_DATE" t h1,
        subWordCI_eq_of_no_match "SYSTIMESTAMP" "CURRENT_TIMESTAMP" t h2,
        subNvl_eq_of_no_match t h3,
        removeKwWord_eq_of_no_match "TABLESPACE" t h4,
        removeStorage_eq_of_no_match t h5,
        removeKwNum_eq_of_no_match "PCTFREE" t h6,
        removeKwNum_eq_of_no_match "PCTUSED" t h7,
        removeKwNum_eq_of_no_match "INITRANS" t h8,
        removeKwNum_eq_of_no_match "MAXTRANS" t h9,
        subWordCI_eq_of_no_match "VARCHAR2" "VARCHAR" t h10,
        subWordCI_eq_of_no_match "NUMBER(10)" "INTEGER" t h11,
        subWordCI_eq_of_no_match "NUMBER(19)" "BIGINT" t h12,
        subWordCI_eq_of_no_match "NUMBER(1)" "BOOLEAN" t h13,
        subNumberPS_eq_of_no_match t h14,
        subWordCI_eq_of_no_match "NUMBER" "NUMERIC" t h15]
  · decide

/-- Witness for C7 amended at a concrete already-converted schema fragment. -/
theorem C7_amended_witness :
    oracleSyntaxNF (convert_oracle_syntax_pass "name VARCHAR(50) NOT NULL") = true ∧
    convert_oracle_syntax_pass (convert_oracle_syntax_pass "name VARCHAR(50) NOT NULL")
      = convert_oracle_syntax_pass "name VARCHAR(50) NOT NULL" :=
  ⟨by decide, C7_amended.1 "name VARCHAR(50) NOT NULL" (by decide)⟩

/-- C6: `generate_migration` indexes both lists by lower-cased name; a table
only in the to-list contributes its captured `original_sql` (a CREATE
statement) to the output, a table only in the from-list contributes a
`DROP TABLE IF EXISTS name CASCADE;` statement, and for `from=[A,B]`,
`to=[B,C]` (distinct lower-cased names) the output is exactly the header, the
CREATE block for `C` and the DROP block for `A` — nothing for `B`. -/
theorem C6_migration_diff :
    (∀ (from_tables to_tables : List SQLTable) (t : SQLTable),
       (to_tables.map lowname).Nodup → t ∈ to_tables →
       lowname t ∉ from_tables.map lowname →
       t.original_sql.data <:+: (generate_migration from_tables to_tables).data) ∧
    (∀ (from_tables to_tables : List SQLTable) (t : SQLTable),
       (from_tables.map lowname).Nodup → t ∈ from_tables →
       lowname t ∉ to_tables.map lowname →
       ("DROP TABLE IF EXISTS " ++ t.name ++ " CASCADE;").data
         <:+: (generate_migration from_tables to_tables).data) ∧
    (∀ A B C : SQLTable, lowname A ≠ lowname B → lowname A ≠ lowname C →
       lowname B ≠ lowname C →
       generate_migration [A, B] [B, C] = joinWith "\n"
         ["-- Migration Script", "-- Generated by ReferenceGenerator SQLConverter", "",
          "-- Create new table: " ++ C.name, C.original_sql, "",
          "-- Drop table: " ++ A.name, "DROP TABLE IF EXISTS " ++ A.name ++ " CASCADE;", ""]) := by
  refine ⟨?_, ?_, ?_⟩
  · intro fs ts t hnodup ht hnot
    simp only [generate_migration]
    rw [foldl_guard_append (fun p => ((dictOfTables fs).lookup p.1).isNone)
          (fun p => ["-- Create new table: " ++ p.2.name, p.2.original_sql, ""])
          (dictOfTables ts) []]
    have hdict : dictOfTables ts = ts.map (fun u => (lowname u, u)) := by
      have := dictOfTables_eq_map ts []
        (fun p hp => absurd hp (List.not_mem_nil p)) hnodup
      simpa [dictOfTables] using this
    refine mem_joinWith_infix _ _ ?_
    refine List.mem_append.mpr (Or.inl (List.mem_append.mpr (Or.inr ?_)))
    refine List.mem_append.mpr (Or.inr ?_)
    refine List.mem_flatMap.mpr ⟨(lowname t, t), ?_, by simp⟩
    refine List.mem_filter.mpr ⟨?_, ?_⟩
    · rw [hdict]; exact List.mem_map_of_mem _ ht
    · have : (dictOfTables fs).lookup (lowname t) = none :=
        lookup_dictOfTables_none _ fs
          (fun u hu he => hnot (he ▸ List.mem_map_of_mem lowname hu))
      simp [this]
  · intro fs ts t hnodup ht hnot
    simp only [generate_migration]
    rw [foldl_guard_append (fun p => ((dictOfTables ts).lookup p.1).isNone)
          (fun p => ["-- Drop table: " ++ p.2.name,
                     "DROP TABLE IF EXISTS " ++ p.2.name ++ " CASCADE;", ""])
          (dictOfTables fs) []]
    have hdict : dictOfTables fs = fs.map (fun u => (lowname u, u)) := by
      have := dictOfTables_eq_map fs []
        (fun p hp => absurd hp (List.not_mem_nil p)) hnodup
      simpa [dictOfTables] using this
    refine mem_joinWith_infix _ _ ?_
    refine List.mem_append.mpr (Or.inr ?_)
    refine List.mem_append.mpr (Or.inr ?_)
    refine List.mem_flatMap.mpr ⟨(lowname t, t), ?_, by simp⟩
    refine List.mem_filter.mpr ⟨?_, ?_⟩
    · rw [hdict]; exact List.mem_map_of_mem _ ht
    · have : (dictOfTables ts).lookup (lowname t) = none :=
        lookup_dictOfTables_none _ ts
          (fun u hu he => hnot (he ▸ List.mem_map_of_mem lowname hu))
      simp [this]
  · intro A B C hAB hAC hBC
    have e1 : (lowname A == lowname B) = false := beq_eq_false_iff_ne.mpr hAB
    have e2 : (lowname B == lowname A) = false := beq_eq_false_iff_ne.mpr (Ne.symm hAB)
    have e3 : (lowname A == lowname C) = false := beq_eq_false_iff_ne.mpr hAC
    have e4 : (lowname C == lowname A) = false := beq_eq_false_iff_ne.mpr (Ne.symm hAC)
    have e5 : (lowname B == lowname C) = false := beq_eq_false_iff_ne.mpr hBC
    have e6 : (lowname C == lowname B) = false := beq_eq_false_iff_ne.mpr (Ne.symm hBC)
    simp [generate_migration, dictOfTables, dictSet, List.lookup,
          e1, e2, e3, e4, e5, e6]

/-- Witness for C6 at concrete tables `from=[alpha,beta]`, `to=[beta,gamma]`. -/
theorem C6_migration_diff_witness :
    generate_migration [tblA, tblB] [tblB, tblC] = joinWith "\n"
      ["-- Migration Script", "-- Generated by ReferenceGenerator SQLConverter", "",
       "-- Create new table: " ++ tblC.name, tblC.original_sql, "",
       "-- Drop table: " ++ tblA.name,
       "DROP TABLE IF EXISTS " ++ tblA.name ++ " CASCADE;", ""] :=
  C6_migration_diff.2.2 tblA tblB tblC (by decide) (by decide) (by decide)

/-- C9: the return annotation of the emitted stub is determined exactly by the
OUT/INOUT parameters of the parsed parameter list: none → `None`, exactly one →
that parameter's mapped type, several → `dict[str, Any]`.  Stated as: whenever
the procedure header matches, the corresponding `) -> ...` signature line
occurs in the emitted stub text. -/
theorem C9_return_shape (procedure_sql : String) (em : List (String × String))
    (proc_name params_str : String)
    (h : matchProcHeader procedure_sql = some (proc_name, params_str)) :
    ("    ) -> " ++ (match (parse_parameters params_str em).filter
        (fun p => p.direction == "OUT" || p.direction == "INOUT") with
      | [] => "None"
      | [p] => p.python_type
      | _ => "dict[str, Any]") ++ ":").data
      <:+: (convert_to_python procedure_sql em).data := by
  have hrt : ∀ out : List ProcParam,
      (if out.length == 0 then "None"
       else if out.length == 1 then (out.head?.map ProcParam.python_type).getD "None"
       else "dict[str, Any]")
      = (match out with
         | [] => "None"
         | [p] => p.python_type
         | _ => "dict[str, Any]") := by
    intro out
    match out with
    | [] => rfl
    | [p] => rfl
    | p :: q :: r => rfl
  simp only [convert_to_python, h]
  rw [← hrt ((parse_parameters params_str em).filter
        (fun p => p.direction == "OUT" || p.direction == "INOUT"))]
  refine mem_joinWith_infix _ _ ?_
  refine List.mem_append.mpr (Or.inr ?_)
  exact List.mem_cons_self _ _

/-- Witness for C9 at the `SP_CREATE_ORDER` example (one OUT parameter). -/
theorem C9_return_shape_witness :
    ("    ) -> " ++ (match (parse_parameters
        "p_customer_id IN NUMBER, p_order_id OUT NUMBER" []).filter
        (fun p => p.direction == "OUT" || p.direction == "INOUT") with
      | [] => "None"
      | [p] => p.python_type
      | _ => "dict[str, Any]") ++ ":").data
      <:+: (convert_to_python spCreateOrderSQL []).data :=
  C9_return_shape spCreateOrderSQL [] "SP_CREATE_ORDER"
    "p_customer_id IN NUMBER, p_order_id OUT NUMBER" (by decide)

/-- C10: the column-rename step ignores its table argument — renaming "for" any
two tables gives identical output — and the rename hits whole-word
case-insensitive occurrences anywhere in the text, including other tables'
definitions. -/
theorem C10_column_rename_table_independent :
    (∀ sql t1 t2 old_col new_col : String,
      replace_column_name sql t1 old_col new_col
        = replace_column_name sql t2 old_col new_col) ∧
    replace_column_name "CREATE TABLE a (x INT); CREATE TABLE b (x INT);" "a" "x" "y"
      = "CREATE TABLE a (y INT); CREATE TABLE b (y INT);" :=
  ⟨fun _ _ _ _ _ => rfl, by decide⟩

end DevFlow
